import Mathlib

/-!
Verification of the church community-management backend (src/app.py).

The development shallowly embeds the persistence layer and the domain
operations of `app.py`. JSON values are modelled by `JVal` (numbers as
exact rationals), the single state blob by `Document`, request bodies by
small per-handler structures, and each Flask handler by a pure Lean
function from the current document and the request body to the updated
document and the response. Randomly generated ids (`uuid.uuid4()`),
timestamps (`now()`) and password hashes are passed in as parameters,
since the handlers treat them as opaque strings.
-/

/-- A JSON value as produced by Flask's `request.get_json()`; numbers are
modelled as exact rationals. -/
inductive JVal : Type where
  | null : JVal
  | bool (b : Bool) : JVal
  | num (q : ℚ) : JVal
  | str (s : String) : JVal
  | arr (elems : List JVal) : JVal
  | obj (fields : List (String × JVal)) : JVal

/-- Python truthiness of a JSON value (`if v:` / `v or default`). -/
def JVal.truthy : JVal → Bool
  | .null => false
  | .bool b => b
  | .num q => decide (q ≠ 0)
  | .str s => decide (s ≠ "")
  | .arr elems => !elems.isEmpty
  | .obj fields => !fields.isEmpty

/-- Value of a digit string, most significant digit first. -/
def digitsVal (cs : List Char) : Nat :=
  cs.foldl (fun a c => a * 10 + (c.toNat - 48)) 0

/-- Python `float(s)` on the plain decimal forms `[+-]digits[.digits]`
(scientific notation, infinities and surrounding whitespace are outside
the inputs the app's decimal amounts use and are treated as failures). -/
def parseDecimal (s : String) : Option ℚ :=
  let signed : List Char × ℚ :=
    match s.toList with
    | '-' :: rest => (rest, -1)
    | '+' :: rest => (rest, 1)
    | rest => (rest, 1)
  let rest := signed.1
  let sign := signed.2
  let ip := rest.takeWhile (·.isDigit)
  let rest2 := rest.dropWhile (·.isDigit)
  match rest2 with
  | [] => if ip = [] then none else some (sign * (digitsVal ip : ℚ))
  | '.' :: fp =>
      if fp.all (·.isDigit) ∧ ¬(ip = [] ∧ fp = []) then
        some (sign * ((digitsVal ip : ℚ) + (digitsVal fp : ℚ) / (10 : ℚ) ^ fp.length))
      else none
  | _ => none

/-- Python `float(v)` on a JSON value: numbers pass through, booleans
coerce to 0/1, decimal strings are parsed, everything else raises
(`none`). -/
def pyFloat : JVal → Option ℚ
  | .num q => some q
  | .bool b => some (if b then 1 else 0)
  | .str s => parseDecimal s
  | _ => none

/-- Python `s.strip()`: drop leading and trailing whitespace. Defined
over the character list so that it evaluates inside the kernel. -/
def pyStrip (s : String) : String :=
  String.mk (((s.data.dropWhile Char.isWhitespace).reverse.dropWhile Char.isWhitespace).reverse)

/-- Python `d.get(k)` on an object's field list (first binding wins, as
dict keys are unique). -/
def lookupKey (kvs : List (String × JVal)) (k : String) : Option JVal :=
  (kvs.find? (fun p => p.1 = k)).map Prod.snd

/-- Python `k in d` on an object's field list. -/
def hasKey (kvs : List (String × JVal)) (k : String) : Bool :=
  kvs.any (fun p => p.1 = k)

/-- Python `d[k] = v`: overwrite an existing binding in place, else
append a new one. -/
def setKey (kvs : List (String × JVal)) (k : String) (v : JVal) : List (String × JVal) :=
  if hasKey kvs k then kvs.map (fun p => if p.1 = k then (k, v) else p)
  else kvs ++ [(k, v)]

/-- An admin record (`admins` collection). -/
structure Admin where
  id : String
  name : String
  pass_hash : String
  created_at : String
deriving DecidableEq

/-- A staff record (`staff` collection); `perms` is the raw JSON
permission map supplied at creation. -/
structure Staff where
  id : String
  name : String
  role : String
  perms : List (String × JVal)
  contact : String
  pass_hash : String
  created_at : String

/-- A member record (`members` collection). -/
structure Member where
  id : String
  name : String
  gender : String
  created_at : String
deriving DecidableEq

/-- One attendance cell: `\x7bstatus, edited_at\x7d`. -/
structure AttEntry where
  status : String
  edited_at : String
deriving DecidableEq

/-- A prayer record (`prayers` collection). -/
structure Prayer where
  id : String
  name : String
  body : String
  assigned_to : String
  assigned_name : String
  reply : String
  status : String
  created_at : String
  updated_at : String
deriving DecidableEq

/-- A donation record (`donations` collection); `updated_at` is absent
until the first PUT. -/
structure Donation where
  id : String
  name : String
  amount : ℚ
  note : String
  created_at : String
  updated_at : Option String
deriving DecidableEq

/-- A contribution record (`contributions` collection). -/
structure Contribution where
  id : String
  name : String
  amount : ℚ
  category : String
  date : String
  note : String
  created_at : String
  updated_at : Option String
deriving DecidableEq

/-- A free-form content record of `events`/`summons`/`bible`/`resources`:
the raw JSON object stored by `admin_collection_post`. -/
abbrev ContentItem := List (String × JVal)

/-- The four free-form content collections. -/
inductive Collection : Type where
  | events | summons | bible | resources
deriving DecidableEq

/-- The Document: the single JSON state blob, with its fixed top-level
keys given their record types from the data model. -/
structure Document where
  admins : List Admin
  staff : List Staff
  members : List Member
  attendance : List (String × List (String × AttEntry))
  events : List ContentItem
  summons : List ContentItem
  bible : List ContentItem
  resources : List ContentItem
  donations : List Donation
  contributions : List Contribution
  prayers : List Prayer

/-- Read a content collection field of the document. -/
def Document.getColl (d : Document) : Collection → List ContentItem
  | .events => d.events
  | .summons => d.summons
  | .bible => d.bible
  | .resources => d.resources

/-- Replace a content collection field of the document. -/
def Document.setColl (d : Document) : Collection → List ContentItem → Document
  | .events, l => { d with events := l }
  | .summons, l => { d with summons := l }
  | .bible, l => { d with bible := l }
  | .resources, l => { d with resources := l }

/-- The empty document (all collections empty). -/
def emptyDocument : Document :=
  { admins := [], staff := [], members := [], attendance := [], events := [],
    summons := [], bible := [], resources := [], donations := [],
    contributions := [], prayers := [] }

/-- The Python dict literal of `admin_collection_post`:
`item = \x7b"id": str(uuid.uuid4()), **j, "created_at": now()\x7d`.
Later bindings override earlier ones, so a `"id"` key in `j` overrides
the generated uuid, while the server's `created_at` overrides any
author-supplied one. -/
def mkContentItem (uuid ts : String) (j : List (String × JVal)) : ContentItem :=
  setKey (j.foldl (fun acc p => setKey acc p.1 p.2) [("id", JVal.str uuid)]) "created_at" (JVal.str ts)

/-- POST branch of `admin_collection_post` (src/app.py lines 479-493):
builds the item from the body `j` and prepends it to the collection. -/
def admin_collection_post (d : Document) (c : Collection) (uuid ts : String)
    (j : List (String × JVal)) : Document × ContentItem :=
  let item := mkContentItem uuid ts j
  (d.setColl c (item :: d.getColl c), item)

/-- The handler `admin_register` (src/app.py lines 355-371): rejected
when an admin already exists, else requires name and password, else
stores the single new admin. The generated uuid, timestamp and password
hash are parameters. -/
def admin_register (d : Document) (uuid ts hash : String)
    (name0 password0 : Option String) : Document × Except String Admin :=
  if d.admins ≠ [] then (d, .error "Admin already exists")
  else
    let name := pyStrip (name0.getD "")
    let password := password0.getD ""
    if name = "" ∨ password = "" then (d, .error "Name & password required")
    else
      let a : Admin := { id := uuid, name := name, pass_hash := hash, created_at := ts }
      ({ d with admins := [a] }, .ok a)

/-- Keep a string when truthy, else substitute a default, then strip:
the Python idiom `(j.get(k) or dflt).strip()` with `none` standing for
an absent or null field. -/
def orElseStr (s0 : Option String) (dflt : String) : String :=
  let s := s0.getD ""
  pyStrip (if s = "" then dflt else s)

/-- DELETE branch of `admin_members` (src/app.py lines 442-448), inner
attendance step: `day.pop(mid, None)`. A missing id (`none`) never
matches a string key. -/
def popEntry (mid : Option String) (day : List (String × AttEntry)) : List (String × AttEntry) :=
  match mid with
  | some s => day.filter (fun p => p.1 ≠ s)
  | none => day

/-- DELETE branch of `admin_members` (src/app.py lines 442-448): drop
every member whose id equals the request id and pop that id from every
attendance date; always responds ok. -/
def admin_members_delete (d : Document) (mid : Option String) : Document × Bool :=
  ({ d with
      members := d.members.filter (fun m => mid ≠ some m.id),
      attendance := d.attendance.map (fun p => (p.1, popEntry mid p.2)) }, true)

/-- POST branch of `api_prayers` (src/app.py lines 315-347): requires a
non-empty body; a non-empty `assigned_to` is resolved against `staff`
and silently cleared when no staff record matches; the new prayer is
prepended. -/
def api_prayers_post (d : Document) (uuid ts : String)
    (body0 name0 assigned0 : Option String) : Document × Except String Prayer :=
  let body := pyStrip (body0.getD "")
  let name := orElseStr name0 "Anonymous"
  let assigned_to := pyStrip (assigned0.getD "")
  if body = "" then (d, .error "Prayer cannot be empty")
  else
    let resolved : String × String :=
      if assigned_to ≠ "" then
        match d.staff.find? (fun s => s.id = assigned_to) with
        | some st => (assigned_to, st.name)
        | none => ("", "")
      else ("", "")
    let p : Prayer :=
      { id := uuid, name := name, body := body, assigned_to := resolved.1,
        assigned_name := resolved.2, reply := "", status := "open",
        created_at := ts, updated_at := ts }
    ({ d with prayers := p :: d.prayers }, .ok p)

/-- DELETE branch of `admin_staff` (src/app.py lines 687-691): drop the
staff record with the request id; prayers are not touched. -/
def admin_staff_delete (d : Document) (sid : Option String) : Document × Bool :=
  ({ d with staff := d.staff.filter (fun s => sid ≠ some s.id) }, true)

/-- The session principal: `session.get("admin_id")` / `session.get("staff_id")`,
with `none` for an absent key. -/
structure Session where
  admin_id : Option String
  staff_id : Option String

/-- Outcome of the `staff_or_admin_allowed` guard: pass, or one of its
three distinct 403 error messages. -/
inductive AuthResult : Type where
  | allowed
  | loginRequired
  | staffNotFound
  | permissionDenied
deriving DecidableEq

/-- Python `staff.get("perms", \x7b\x7d).get(name)` truthiness. -/
def permTruthy (perms : List (String × JVal)) (p : String) : Bool :=
  match lookupKey perms p with
  | some v => v.truthy
  | none => false

/-- The decorator `staff_or_admin_allowed` (src/app.py lines 234-251):
an admin session always passes; otherwise a staff session is required
(`loginRequired`), the staff id must still exist in the document
(`staffNotFound`), and when a permission name is checked its stored
value must be truthy (`permissionDenied`). -/
def staff_or_admin_allowed (checkPerm : Option String) (sess : Session) (d : Document) :
    AuthResult :=
  match sess.admin_id with
  | some _ => .allowed
  | none =>
    match sess.staff_id with
    | none => .loginRequired
    | some sid =>
      match d.staff.find? (fun s => s.id = sid) with
      | none => .staffNotFound
      | some st =>
        match checkPerm with
        | some p => if permTruthy st.perms p then .allowed else .permissionDenied
        | none => .allowed

/-- The amount computed by the donation/contribution POST handlers:
`float(j.get("amount") or 0)` under a `try` that turns any parse failure
into 0 (src/app.py lines 544-547 and 596-599). -/
def parsedAmount (amount : Option JVal) : ℚ :=
  let v := amount.getD JVal.null
  if v.truthy then (pyFloat v).getD 0 else 0

/-- JSON body of the donation POST (absent/null fields are `none`). -/
structure DonationBody where
  name : Option String
  amount : Option JVal
  note : Option String

/-- POST branch of `admin_donations` (src/app.py lines 536-553): the
amount must parse positive, else the request is rejected with no
mutation; the record is prepended with name defaulting to Anonymous. -/
def admin_donations_post (d : Document) (uuid ts : String) (j : DonationBody) :
    Document × Except String Donation :=
  let amount := parsedAmount j.amount
  if amount ≤ 0 then (d, .error "Invalid amount")
  else
    let r : Donation :=
      { id := uuid, name := orElseStr j.name "Anonymous", amount := amount,
        note := j.note.getD "", created_at := ts, updated_at := none }
    ({ d with donations := r :: d.donations }, .ok r)

/-- JSON body of the contribution POST (absent/null fields are `none`). -/
structure ContributionBody where
  name : Option String
  amount : Option JVal
  category : Option String
  date : Option String
  note : Option String

/-- POST branch of `admin_contributions` (src/app.py lines 587-613):
same amount validation as donations; `date` defaults to the current
timestamp when falsy. -/
def admin_contributions_post (d : Document) (uuid ts : String) (j : ContributionBody) :
    Document × Except String Contribution :=
  let amount := parsedAmount j.amount
  if amount ≤ 0 then (d, .error "Invalid amount")
  else
    let date0 := j.date.getD ""
    let r : Contribution :=
      { id := uuid, name := orElseStr j.name "Anonymous", amount := amount,
        category := pyStrip (j.category.getD ""),
        date := if date0 = "" then ts else date0,
        note := j.note.getD "", created_at := ts, updated_at := none }
    ({ d with contributions := r :: d.contributions }, .ok r)

/-- Update the first list element satisfying the predicate; `none` when
no element matches (the Python `for ... if ... return` / fall-through
pattern of the PUT handlers). -/
def updateFirst (p : α → Bool) (f : α → α) : List α → Option (List α)
  | [] => none
  | x :: xs => if p x then some (f x :: xs) else (updateFirst p f xs).map (x :: ·)

/-- JSON body of the donation PUT; `amount = none` models the key
`"amount"` being absent from the body. -/
structure DonationPut where
  name : Option String
  amount : Option JVal
  note : Option String

/-- Field updates of the donation PUT (src/app.py lines 562-572): when
`"amount" in j`, `d["amount"] = float(j["amount"])` under a `try` whose
failure keeps the old amount; no positivity check is performed. -/
def updateDonationRec (ts : String) (j : DonationPut) (dn : Donation) : Donation :=
  { dn with
    name := j.name.getD dn.name,
    amount := match j.amount with
      | none => dn.amount
      | some v => (pyFloat v).getD dn.amount,
    note := j.note.getD dn.note,
    updated_at := some ts }

/-- PUT branch of `admin_donation_modify` (src/app.py lines 555-575):
update the first donation with the given id, else Not found. -/
def admin_donation_modify_put (d : Document) (ts did : String) (j : DonationPut) :
    Document × Bool :=
  match updateFirst (fun dn => dn.id = did) (updateDonationRec ts j) d.donations with
  | some l => ({ d with donations := l }, true)
  | none => (d, false)

/-- JSON body of the contribution PUT; `amount = none` models the key
`"amount"` being absent from the body. -/
structure ContributionPut where
  name : Option String
  amount : Option JVal
  category : Option String
  date : Option String
  note : Option String

/-- Field updates of the contribution PUT (src/app.py lines 623-634):
the amount line mirrors the donation PUT, again with no positivity
check. -/
def updateContributionRec (ts : String) (j : ContributionPut) (c : Contribution) : Contribution :=
  { c with
    name := j.name.getD c.name,
    amount := match j.amount with
      | none => c.amount
      | some v => (pyFloat v).getD c.amount,
    category := j.category.getD c.category,
    date := j.date.getD c.date,
    note := j.note.getD c.note,
    updated_at := some ts }

/-- PUT branch of `admin_contribution_modify` (src/app.py lines 615-637). -/
def admin_contribution_modify_put (d : Document) (ts cid : String) (j : ContributionPut) :
    Document × Bool :=
  match updateFirst (fun c => c.id = cid) (updateContributionRec ts j) d.contributions with
  | some l => ({ d with contributions := l }, true)
  | none => (d, false)

/-- Outcome of one conditional PUT to the remote store
(`save_to_github`, src/app.py lines 68-91): success carries the new
version token; failure carries the HTTP status, or `none` when the
request raised. -/
inductive PutOutcome : Type where
  | ok (newSha : Option String)
  | err (status : Option Nat)
deriving DecidableEq

/-- Behaviour of the remote store during one `save_data` call:
`latestSha i` is the version token returned by the GET issued
immediately before write attempt `i` (`none` when the GET failed or the
file does not exist), and `put i sha` is the outcome of the conditional
PUT of attempt `i` tagged with token `sha`. -/
structure RemoteEnv where
  latestSha : Nat → Option String
  put : Nat → Option String → PutOutcome

/-- The statuses `save_data` retries on: `status_code in (409, 422)`. -/
def isRetryStatus : Option Nat → Bool
  | some 409 => true
  | some 422 => true
  | _ => false

/-- Result of the remote attempt loop of `save_data`: on success the new
token plus the tokens used by each attempt so far; on failure just the
tokens used (their count is the number of attempts performed). -/
inductive RemoteTry : Type where
  | success (newSha : Option String) (shas : List (Option String))
  | failed (shas : List (Option String))
deriving DecidableEq

/-- The attempt loop of `save_data` (src/app.py lines 180-203): up to
`fuel` attempts starting at index `i`; each attempt re-reads the latest
token and issues a conditional PUT with it; a 409/422 status retries
(after a short sleep, not modelled), any other failure breaks out. -/
def saveAttempts (env : RemoteEnv) (i : Nat) : Nat → RemoteTry
  | 0 => .failed []
  | fuel + 1 =>
    let sha := env.latestSha i
    match env.put i sha with
    | .ok newSha => .success newSha [sha]
    | .err status =>
      if isRetryStatus status then
        match saveAttempts env (i + 1) fuel with
        | .success ns shas => .success ns (sha :: shas)
        | .failed shas => .failed (sha :: shas)
      else .failed [sha]

/-- Observable outcome of one `save_data` call: the returned boolean,
the number of remote write attempts with the token each used, the
remembered remote version token afterwards, and the local cache file
content afterwards. -/
structure SaveResult (α : Type) where
  ok : Bool
  attemptsMade : Nat
  shasUsed : List (Option String)
  sha : Option String
  cache : Option α
deriving DecidableEq

/-- The function `save_data` (src/app.py lines 168-222), abstracted over
the document type `α`. `configured` is `GITHUB_TOKEN and REPO`;
`localOk` tells whether writing the local cache file succeeds; `sha0`
and `cache0` are the remembered token and cache content before the
call. With the remote configured: up to 3 attempts; on remote success
the token advances and the result is true; on exhaustion or abort the
token is kept, the document is written locally, and the result is true
unless that local write fails. Without the remote, only the local write
counts. -/
def save_data {α : Type} (doc : α) (configured : Bool) (env : RemoteEnv)
    (localOk : Bool) (sha0 : Option String) (cache0 : Option α) : SaveResult α :=
  let cacheAfter : Option α := if localOk then some doc else cache0
  if configured then
    match saveAttempts env 0 3 with
    | .success newSha shas =>
      { ok := true, attemptsMade := shas.length, shasUsed := shas,
        sha := newSha, cache := cacheAfter }
    | .failed shas =>
      { ok := localOk, attemptsMade := shas.length, shasUsed := shas,
        sha := sha0, cache := cacheAfter }
  else
    { ok := localOk, attemptsMade := 0, shasUsed := [], sha := sha0, cache := cacheAfter }

/-- The stored form of the document for the default-key merge of
`load_data`: the raw top-level JSON object. -/
abbrev TopDoc := List (String × JVal)

/-- The module constant `DEFAULT_DATA` (src/app.py lines 98-111). -/
def DEFAULT_DATA : TopDoc :=
  [("admins", JVal.arr []), ("staff", JVal.arr []), ("members", JVal.arr []),
   ("attendance", JVal.obj []), ("events", JVal.arr []), ("summons", JVal.arr []),
   ("bible", JVal.arr []), ("resources", JVal.arr []), ("donations", JVal.arr []),
   ("contributions", JVal.arr []), ("prayers", JVal.arr []), ("pulses", JVal.arr [])]

/-- One iteration of the backfill loop of `load_data`:
`if k not in data: data[k] = v`. -/
def backfillStep (acc : TopDoc) (kv : String × JVal) : TopDoc :=
  if hasKey acc kv.1 then acc else acc ++ [kv]

/-- The backfill loop of `load_data` (src/app.py lines 135-137 and
163-165): `for k, v in DEFAULT_DATA.items(): if k not in data: data[k] = v`. -/
def ensure_default_keys (d : TopDoc) : TopDoc :=
  DEFAULT_DATA.foldl backfillStep d

/-- The function `load_data` (src/app.py lines 127-166), keyed on the
stored document that the winning tier (remote read, local file, or the
fresh-default path when both are absent or unparseable) produced: the
returned document is the stored one with missing default keys
backfilled. The best-effort local cache write is not observable in the
returned document and is omitted. -/
def load_data (stored : Option TopDoc) : TopDoc :=
  match stored with
  | some db => ensure_default_keys db
  | none => ensure_default_keys DEFAULT_DATA

/-- Lookup of a member id in one attendance date row. -/
def rowLookup (day : List (String × AttEntry)) (k : String) : Option AttEntry :=
  (day.find? (fun p => p.1 = k)).map Prod.snd

/-- Lookup of a member id under a date in the document's attendance. -/
def attLookup (d : Document) (date k : String) : Option AttEntry :=
  match d.attendance.find? (fun p => p.1 = date) with
  | some row => rowLookup row.2 k
  | none => none

/-- The spec invariant on prayers: each `assigned_to` is empty or the id
of a staff record currently present in `staff`. -/
def prayerAssignmentOk (d : Document) : Prop :=
  ∀ p ∈ d.prayers, p.assigned_to = "" ∨ ∃ s ∈ d.staff, s.id = p.assigned_to

/-- Fixture: the bootstrap admin. -/
def adminA : Admin :=
  { id := "a1", name := "root", pass_hash := "h", created_at := "t0" }

/-- Fixture: a document that already has an admin. -/
def docC7 : Document := { emptyDocument with admins := [adminA] }

/-- Fixture: a stored donation with a positive amount. -/
def donationD1 : Donation :=
  { id := "d1", name := "Bob", amount := 5, note := "", created_at := "t0", updated_at := none }

/-- Fixture: a stored contribution with a positive amount. -/
def contributionC1 : Contribution :=
  { id := "c1", name := "Bob", amount := 5, category := "tithe", date := "t0", note := "",
    created_at := "t0", updated_at := none }

/-- Fixture: a document holding the donation and contribution above. -/
def docC3 : Document :=
  { emptyDocument with donations := [donationD1], contributions := [contributionC1] }

/-- Fixture: a staff record with id s1. -/
def staffS1 : Staff :=
  { id := "s1", name := "Sam", role := "", perms := [], contact := "", pass_hash := "h",
    created_at := "t0" }

/-- Fixture: a prayer assigned to staff s1. -/
def prayerP1 : Prayer :=
  { id := "p1", name := "Ada", body := "pray for me", assigned_to := "s1",
    assigned_name := "Sam", reply := "", status := "open", created_at := "t0",
    updated_at := "t0" }

/-- Fixture: a document where prayer p1 is assigned to existing staff s1. -/
def docC4 : Document := { emptyDocument with staff := [staffS1], prayers := [prayerP1] }

/-- Fixture: two attendance cells. -/
def attEntry1 : AttEntry := { status := "present", edited_at := "t0" }

/-- Fixture: a second attendance cell. -/
def attEntry2 : AttEntry := { status := "absent", edited_at := "t0" }

/-- Fixture: member m1. -/
def memberM1 : Member := { id := "m1", name := "May", gender := "", created_at := "t0" }

/-- Fixture: a document where one date has attendance entries for m1 and m2. -/
def docC5 : Document :=
  { emptyDocument with
      members := [memberM1],
      attendance := [("2024-01-05", [("m1", attEntry1), ("m2", attEntry2)])] }

/-- Fixture: a staff record whose permission map grants post_content. -/
def staffC6 : Staff :=
  { id := "s6", name := "Pam", role := "editor",
    perms := [("post_content", JVal.bool true), ("add_donations", JVal.bool false)],
    contact := "", pass_hash := "h", created_at := "t0" }

/-- Fixture: a document holding the staff record above. -/
def docC6 : Document := { emptyDocument with staff := [staffC6] }

/-- Fixture: a session logged in as staff s6 with no admin identity. -/
def sessC6 : Session := { admin_id := none, staff_id := some "s6" }

/-- Fixture: a stored top-level document missing most default keys and
carrying one extra key. -/
def dbC9 : TopDoc :=
  [("members", JVal.arr [JVal.str "x"]), ("extra", JVal.num 7)]

/-- Fixture: an attendance cell for an id that is not a member. -/
def ghostEntry : AttEntry := { status := "present", edited_at := "t0" }

/-- Fixture: a document whose attendance holds an entry for the unknown
id ghost while `members` holds no such member. -/
def docC10 : Document :=
  { emptyDocument with attendance := [("2024-01-05", [("ghost", ghostEntry)])] }

/-- Fixture: a remote store that reports a version conflict (HTTP 409)
on every conditional write. -/
def envC2 : RemoteEnv :=
  { latestSha := fun _ => some "sha-a", put := fun _ _ => PutOutcome.err (some 409) }

/-- Fixture: a donation body with a negative amount. -/
def jdNeg : DonationBody := { name := some "Eve", amount := some (JVal.num (-1)), note := none }

/-- Fixture: a donation body with a positive amount and no name. -/
def jdPos : DonationBody := { name := none, amount := some (JVal.num 30), note := none }

/-- Fixture: a contribution body with a non-numeric amount. -/
def jcNeg : ContributionBody :=
  { name := some "Eve", amount := some (JVal.str "abc"), category := none, date := none,
    note := none }

/-- Fixture: a contribution body with a positive amount and no name. -/
def jcPos : ContributionBody :=
  { name := none, amount := some (JVal.num 20), category := some "tithe", date := none,
    note := none }

theorem lookupKey_append_left {d : TopDoc} (e : TopDoc) {k : String} {v : JVal}
    (h : lookupKey d k = some v) : lookupKey (d ++ e) k = some v := by
  unfold lookupKey at h ⊢
  cases hf : d.find? (fun p => p.1 = k) with
  | none => rw [hf] at h; simp at h
  | some x => rw [hf] at h; simp [List.find?_append, hf, h]

theorem hasKey_append (d e : TopDoc) (k : String) :
    hasKey (d ++ e) k = (hasKey d k || hasKey e k) := by
  unfold hasKey
  exact List.any_append

theorem lookupKey_eq_none_of_hasKey_false {d : TopDoc} {k : String}
    (h : hasKey d k = false) : lookupKey d k = none := by
  unfold lookupKey
  rw [List.find?_eq_none.mpr]
  · rfl
  · intro x hx hpx
    have : d.any (fun p => p.1 = k) = true := List.any_eq_true.mpr ⟨x, hx, hpx⟩
    rw [hasKey] at h
    simp [this] at h

theorem lookupKey_append_single {d : TopDoc} {k : String} (v : JVal)
    (h : hasKey d k = false) : lookupKey (d ++ [(k, v)]) k = some v := by
  have hnone : lookupKey d k = none := lookupKey_eq_none_of_hasKey_false h
  unfold lookupKey at hnone ⊢
  cases hf : d.find? (fun p => p.1 = k) with
  | none => simp [List.find?_append, hf, List.find?_cons]
  | some x => rw [hf] at hnone; simp at hnone

theorem lookupKey_foldl_backfill_of_some (l : TopDoc) :
    ∀ (d : TopDoc) (k : String) (v : JVal), lookupKey d k = some v →
      lookupKey (l.foldl backfillStep d) k = some v := by
  induction l with
  | nil => intro d k v h; exact h
  | cons kv t ih =>
    intro d k v h
    rw [List.foldl_cons]
    apply ih
    unfold backfillStep
    by_cases hk : hasKey d kv.1
    · rw [if_pos hk]; exact h
    · rw [if_neg hk]; exact lookupKey_append_left _ h

theorem hasKey_foldl_backfill_of_hasKey (l : TopDoc) :
    ∀ (d : TopDoc) (k : String), hasKey d k = true →
      hasKey (l.foldl backfillStep d) k = true := by
  induction l with
  | nil => intro d k h; exact h
  | cons kv t ih =>
    intro d k h
    rw [List.foldl_cons]
    apply ih
    unfold backfillStep
    by_cases hk : hasKey d kv.1
    · rw [if_pos hk]; exact h
    · rw [if_neg hk]; rw [hasKey_append, h]; rfl

theorem hasKey_foldl_backfill_mem (l : TopDoc) :
    ∀ (d : TopDoc) (kv : String × JVal), kv ∈ l →
      hasKey (l.foldl backfillStep d) kv.1 = true := by
  induction l with
  | nil => intro d kv h; cases h
  | cons kv0 t ih =>
    intro d kv h
    rw [List.foldl_cons]
    rcases List.mem_cons.mp h with h0 | ht
    · subst h0
      apply hasKey_foldl_backfill_of_hasKey
      unfold backfillStep
      by_cases hk : hasKey d kv.1
      · rw [if_pos hk]; exact hk
      · rw [if_neg hk, hasKey_append]
        simp [hasKey]
    · exact ih _ kv ht

theorem lookupKey_foldl_backfill_missing (l : TopDoc) :
    ∀ (d : TopDoc) (k : String) (v : JVal), (k, v) ∈ l → (l.map Prod.fst).Nodup →
      hasKey d k = false → lookupKey (l.foldl backfillStep d) k = some v := by
  induction l with
  | nil => intro d k v h _ _; cases h
  | cons kv0 t ih =>
    intro d k v hmem hnd hmiss
    rw [List.foldl_cons]
    rcases List.mem_cons.mp hmem with h0 | ht
    · subst h0
      have hstep : backfillStep d (k, v) = d ++ [(k, v)] := by
        unfold backfillStep
        rw [if_neg]
        simp [hmiss]
      rw [hstep]
      exact lookupKey_foldl_backfill_of_some t _ k v (lookupKey_append_single v hmiss)
    · have hk0 : kv0.1 ≠ k := by
        intro he
        have hk_in : k ∈ t.map Prod.fst := List.mem_map.mpr ⟨(k, v), ht, rfl⟩
        rw [List.map_cons] at hnd
        exact (List.nodup_cons.mp hnd).1 (he ▸ hk_in)
      have hmiss2 : hasKey (backfillStep d kv0) k = false := by
        unfold backfillStep
        by_cases hk : hasKey d kv0.1
        · rw [if_pos hk]; exact hmiss
        · rw [if_neg hk, hasKey_append, hmiss]
          simp [hasKey, hk0]
      exact ih _ k v ht (by rw [List.map_cons] at hnd; exact (List.nodup_cons.mp hnd).2) hmiss2

theorem rowLookup_filter_self (day : List (String × AttEntry)) (mid : String) :
    rowLookup (day.filter (fun p => p.1 ≠ mid)) mid = none := by
  unfold rowLookup
  rw [List.find?_eq_none.mpr]
  · rfl
  · intro x hx
    have := (List.mem_filter.mp hx).2
    simp at this
    simp [this]

theorem rowLookup_filter_ne (day : List (String × AttEntry)) (mid k : String)
    (h : k ≠ mid) :
    rowLookup (day.filter (fun p => p.1 ≠ mid)) k = rowLookup day k := by
  induction day with
  | nil => rfl
  | cons x xs ih =>
    by_cases hx : x.1 = mid
    · have hxk : ¬x.1 = k := fun he => h (he ▸ hx)
      rw [List.filter_cons, if_neg (by simp [hx])]
      rw [ih]
      unfold rowLookup
      rw [List.find?_cons]
      simp [hxk]
    · rw [List.filter_cons, if_pos (by simp [hx])]
      unfold rowLookup
      rw [List.find?_cons, List.find?_cons]
      by_cases hk : x.1 = k
      · simp [hk]
      · rw [decide_eq_false hk]
        exact ih

theorem find?_map_snd_update (l : List (String × List (String × AttEntry)))
    (g : List (String × AttEntry) → List (String × AttEntry)) (date : String) :
    (l.map (fun p => (p.1, g p.2))).find? (fun p => p.1 = date) =
      (l.find? (fun p => p.1 = date)).map (fun p => (p.1, g p.2)) := by
  induction l with
  | nil => rfl
  | cons x xs ih =>
    rw [List.map_cons, List.find?_cons, List.find?_cons]
    by_cases h : x.1 = date
    · simp [h]
    · rw [decide_eq_false h]
      exact ih

/-- C1: refuted on the code. Evaluating the content POST handler on a
body that itself carries an `id` field shows the stored record's id is
the author-supplied `"evil"`, not the freshly generated `"fresh-uuid"`:
the dict literal expands `**j` after the generated id, so the body
overrides it. The server-injected `created_at` still wins, and the item
is stored at the head of the collection. -/
theorem claim_C1_code_eval :
    lookupKey (admin_collection_post emptyDocument Collection.events "fresh-uuid"
      "2024-01-01T00:00:00Z" [("id", JVal.str "evil"), ("title", JVal.str "T")]).2 "id" =
      some (JVal.str "evil") ∧
    ("evil" : String) ≠ "fresh-uuid" ∧
    lookupKey (admin_collection_post emptyDocument Collection.events "fresh-uuid"
      "2024-01-01T00:00:00Z" [("id", JVal.str "evil"), ("title", JVal.str "T")]).2 "created_at" =
      some (JVal.str "2024-01-01T00:00:00Z") ∧
    (admin_collection_post emptyDocument Collection.events "fresh-uuid"
      "2024-01-01T00:00:00Z" [("id", JVal.str "evil"), ("title", JVal.str "T")]).1.events =
      [(admin_collection_post emptyDocument Collection.events "fresh-uuid"
        "2024-01-01T00:00:00Z" [("id", JVal.str "evil"), ("title", JVal.str "T")]).2] := by
  refine ⟨rfl, by decide, rfl, rfl⟩

/-- C7: admin registration succeeds only on an empty `admins` list;
whenever an admin already exists, any credentials are rejected with
Admin already exists and the document is unchanged. -/
theorem claim_C7 (d : Document) (uuid ts hash : String) (n p : Option String) :
    (∀ a : Admin, (admin_register d uuid ts hash n p).2 = Except.ok a → d.admins = []) ∧
    (d.admins ≠ [] →
      (admin_register d uuid ts hash n p).2 = Except.error "Admin already exists" ∧
      (admin_register d uuid ts hash n p).1 = d) := by
  constructor
  · intro a ha
    by_contra hne
    simp [admin_register, hne] at ha
  · intro hne
    simp [admin_register, hne]

/-- C7 witness: with one admin stored, a concrete second registration is
rejected and the document is unchanged. -/
theorem claim_C7_witness :
    docC7.admins ≠ [] ∧
    (admin_register docC7 "u2" "t2" "h2" (some "eve") (some "pw")).2 =
      Except.error "Admin already exists" ∧
    (admin_register docC7 "u2" "t2" "h2" (some "eve") (some "pw")).1 = docC7 := by
  have h : docC7.admins ≠ [] := by simp [docC7, emptyDocument]
  exact ⟨h, (claim_C7 docC7 "u2" "t2" "h2" (some "eve") (some "pw")).2 h⟩

/-- C3: refuted on the code. Starting from a document whose donation and
contribution both carry a positive amount, a PUT with a non-positive
amount is accepted by the update handlers (they parse the amount without
re-checking positivity), leaving stored records with amount -3 and 0. -/
theorem claim_C3_code_eval :
    (0 < donationD1.amount ∧ 0 < contributionC1.amount) ∧
    ((admin_donation_modify_put docC3 "t1" "d1"
        { name := none, amount := some (JVal.num (-3)), note := none }).1.donations.map
      (fun dn => dn.amount) = [-3]) ∧
    ((admin_contribution_modify_put docC3 "t1" "c1"
        { name := none, amount := some (JVal.num 0), category := none, date := none,
          note := none }).1.contributions.map (fun c => c.amount) = [0]) := by
  refine ⟨⟨by norm_num [donationD1], by norm_num [contributionC1]⟩, ?_, ?_⟩
  · rfl
  · rfl

/-- C4 counterexample: in a document where prayer p1 is assigned to the
existing staff s1 (so the invariant holds), deleting staff s1 leaves the
prayer still assigned to s1, which no longer exists: the invariant is
not preserved by staff deletion. -/
theorem claim_C4_counterexample :
    prayerAssignmentOk docC4 ∧
    (admin_staff_delete docC4 (some "s1")).2 = true ∧
    ¬ prayerAssignmentOk (admin_staff_delete docC4 (some "s1")).1 := by
  refine ⟨?_, rfl, ?_⟩
  · intro p hp
    right
    refine ⟨staffS1, ?_, ?_⟩
    · exact List.mem_cons_self _ _
    · rcases List.mem_singleton.mp hp with rfl
      rfl
  · intro hinv
    rcases hinv prayerP1 (List.mem_singleton.mpr rfl) with h | ⟨s, hs, _⟩
    · exact absurd h (by decide)
    · simp [admin_staff_delete, docC4, emptyDocument, staffS1] at hs

/-- C4 (amended): submitting a prayer whose `assigned_to` does not match
any existing staff id stores it with both `assigned_to` and
`assigned_name` empty, prepended to `prayers`; the write-time validation
holds, but staff deletion does not re-validate stored prayers. -/
theorem claim_C4_amended (d : Document) (uuid ts : String) (b n a : Option String)
    (hb : pyStrip (b.getD "") ≠ "")
    (ha : ∀ s ∈ d.staff, s.id ≠ pyStrip (a.getD "")) :
    ∃ p : Prayer, (api_prayers_post d uuid ts b n a).2 = Except.ok p ∧
      p.assigned_to = "" ∧ p.assigned_name = "" ∧
      (api_prayers_post d uuid ts b n a).1.prayers = p :: d.prayers := by
  have hfind : d.staff.find? (fun s => s.id = pyStrip (a.getD "")) = none := by
    rw [List.find?_eq_none]
    intro s hs
    simpa using ha s hs
  simp only [api_prayers_post, if_neg hb]
  by_cases hA : pyStrip (a.getD "") = ""
  · simp [hA]
  · simp [hA, hfind]

/-- C4 witness: a concrete prayer submission against the staff list of
docC4 with the unknown assignee ghost is stored cleared. -/
theorem claim_C4_witness :
    ∃ p : Prayer,
      (api_prayers_post docC4 "u9" "t9" (some "help me") none (some "ghost")).2 =
        Except.ok p ∧
      p.assigned_to = "" ∧ p.assigned_name = "" ∧
      (api_prayers_post docC4 "u9" "t9" (some "help me") none (some "ghost")).1.prayers =
        p :: docC4.prayers := by
  apply claim_C4_amended
  · decide
  · intro s hs
    rcases List.mem_singleton.mp hs with rfl
    decide

/-- C5: member delete removes exactly the deleted member's entries from
every attendance date: afterwards no date row holds an entry keyed by
the deleted id, and every other id's lookup under every date is
unchanged. -/
theorem claim_C5 (d : Document) (mid : String) :
    (∀ row ∈ (admin_members_delete d (some mid)).1.attendance, rowLookup row.2 mid = none) ∧
    (∀ date k, k ≠ mid →
      attLookup (admin_members_delete d (some mid)).1 date k = attLookup d date k) := by
  constructor
  · intro row hrow
    simp only [admin_members_delete] at hrow
    rcases List.mem_map.mp hrow with ⟨p, hp, rfl⟩
    exact rowLookup_filter_self p.2 mid
  · intro date k hk
    unfold attLookup
    simp only [admin_members_delete]
    rw [find?_map_snd_update]
    cases hf : d.attendance.find? (fun p => p.1 = date) with
    | none => rfl
    | some row =>
      simp only [Option.map_some]
      exact rowLookup_filter_ne row.2 mid k hk

/-- C5 witness: deleting member m1 from docC5 leaves the date row
without an m1 entry while m2's entry on that date is unchanged. -/
theorem claim_C5_witness :
    rowLookup [("m2", attEntry2)] "m1" = none ∧
    attLookup (admin_members_delete docC5 (some "m1")).1 "2024-01-05" "m2" =
      attLookup docC5 "2024-01-05" "m2" := by
  have h := claim_C5 docC5 "m1"
  refine ⟨?_, h.2 "2024-01-05" "m2" (by decide)⟩
  have hm : ("2024-01-05", [("m2", attEntry2)]) ∈
      (admin_members_delete docC5 (some "m1")).1.attendance := by decide
  exact h.1 _ hm

/-- C6: under the permission gate with name `p`, an admin session always
passes; with no admin identity, a staff session passes exactly when the
staff id is still present in `staff` (assuming staff ids are distinct,
as they are generated uniquely) with `p` truthy in its permission map, a
vanished staff id yields Staff not found, a session with no identity at
all yields Login required, and the latter error differs from the
insufficient-permission error. -/
theorem claim_C6 (p : String) (sess : Session) (d : Document)
    (hnd : (d.staff.map Staff.id).Nodup) :
    (∀ aid, sess.admin_id = some aid →
      staff_or_admin_allowed (some p) sess d = AuthResult.allowed) ∧
    (sess.admin_id = none → ∀ sid, sess.staff_id = some sid →
      ((staff_or_admin_allowed (some p) sess d = AuthResult.allowed ↔
        ∃ s ∈ d.staff, s.id = sid ∧ permTruthy s.perms p = true) ∧
       ((∀ s ∈ d.staff, s.id ≠ sid) →
         staff_or_admin_allowed (some p) sess d = AuthResult.staffNotFound))) ∧
    (sess.admin_id = none → sess.staff_id = none →
      staff_or_admin_allowed (some p) sess d = AuthResult.loginRequired) ∧
    AuthResult.loginRequired ≠ AuthResult.permissionDenied := by
  refine ⟨?_, ?_, ?_, by decide⟩
  · intro aid ha
    simp [staff_or_admin_allowed, ha]
  · intro hadm sid hsid
    have hgate : staff_or_admin_allowed (some p) sess d =
        (match d.staff.find? (fun s => s.id = sid) with
         | none => AuthResult.staffNotFound
         | some st =>
             if permTruthy st.perms p then AuthResult.allowed
             else AuthResult.permissionDenied) := by
      simp [staff_or_admin_allowed, hadm, hsid]
    refine ⟨⟨?_, ?_⟩, ?_⟩
    · intro hall
      rw [hgate] at hall
      cases hF : d.staff.find? (fun s => s.id = sid) with
      | none =>
        rw [hF] at hall
        exact AuthResult.noConfusion hall
      | some st =>
        rw [hF] at hall
        have hall2 : (if permTruthy st.perms p = true then AuthResult.allowed
            else AuthResult.permissionDenied) = AuthResult.allowed := hall
        by_cases hperm : permTruthy st.perms p
        · exact ⟨st, List.mem_of_find?_eq_some hF, by simpa using List.find?_some hF, hperm⟩
        · rw [if_neg hperm] at hall2
          exact AuthResult.noConfusion hall2
    · rintro ⟨s0, hs0, hid0, hperm0⟩
      rw [hgate]
      cases hF : d.staff.find? (fun s => s.id = sid) with
      | none =>
        exact absurd (List.find?_eq_none.mp hF s0 hs0) (by simp [hid0])
      | some st =>
        have hstid : st.id = sid := by simpa using List.find?_some hF
        have hst : st = s0 :=
          List.inj_on_of_nodup_map hnd (List.mem_of_find?_eq_some hF) hs0
            (by rw [hstid, hid0])
        show (if permTruthy st.perms p = true then AuthResult.allowed
            else AuthResult.permissionDenied) = AuthResult.allowed
        rw [hst, if_pos hperm0]
    · intro hnone
      have hF : d.staff.find? (fun s => s.id = sid) = none := by
        rw [List.find?_eq_none]
        intro s hs
        simpa using hnone s hs
      rw [hgate]
      simp only [hF]
  · intro hadm hstaff
    simp [staff_or_admin_allowed, hadm, hstaff]

/-- C6 witness: the concrete staff session s6, whose stored permission
map grants post_content, passes the gate on docC6. -/
theorem claim_C6_witness :
    staff_or_admin_allowed (some "post_content") sessC6 docC6 = AuthResult.allowed := by
  have h := claim_C6 "post_content" sessC6 docC6 (by decide)
  exact ((h.2.1 rfl "s6" rfl).1).mpr ⟨staffC6, List.mem_cons_self _ _, rfl, rfl⟩

/-- C8: a donation or contribution creation whose amount is non-numeric
or parses non-positive is rejected as Invalid amount with the document
unchanged; a positive amount is stored at the head of its collection
with that amount, and the name defaults to Anonymous when absent. -/
theorem claim_C8 (d : Document) (uuid ts : String) (jd : DonationBody)
    (jc : ContributionBody) :
    (parsedAmount jd.amount ≤ 0 →
      admin_donations_post d uuid ts jd = (d, Except.error "Invalid amount")) ∧
    (∀ v, jd.amount = some v → pyFloat v = none →
      admin_donations_post d uuid ts jd = (d, Except.error "Invalid amount")) ∧
    (0 < parsedAmount jd.amount →
      ∃ r : Donation, (admin_donations_post d uuid ts jd).2 = Except.ok r ∧
        r.amount = parsedAmount jd.amount ∧
        (admin_donations_post d uuid ts jd).1.donations = r :: d.donations ∧
        (jd.name = none → r.name = "Anonymous")) ∧
    (parsedAmount jc.amount ≤ 0 →
      admin_contributions_post d uuid ts jc = (d, Except.error "Invalid amount")) ∧
    (∀ v, jc.amount = some v → pyFloat v = none →
      admin_contributions_post d uuid ts jc = (d, Except.error "Invalid amount")) ∧
    (0 < parsedAmount jc.amount →
      ∃ r : Contribution, (admin_contributions_post d uuid ts jc).2 = Except.ok r ∧
        r.amount = parsedAmount jc.amount ∧
        (admin_contributions_post d uuid ts jc).1.contributions = r :: d.contributions ∧
        (jc.name = none → r.name = "Anonymous")) := by
  have hzero : ∀ v : JVal, pyFloat v = none → parsedAmount (some v) = 0 := by
    intro v hv
    unfold parsedAmount
    cases hvt : v.truthy with
    | true => simp [hv]
    | false => simp [hvt]
  refine ⟨?_, ?_, ?_, ?_, ?_, ?_⟩
  · intro h
    simp only [admin_donations_post]
    rw [if_pos h]
  · intro v hv hpf
    simp only [admin_donations_post]
    rw [if_pos (by rw [hv, hzero v hpf])]
  · intro h
    simp only [admin_donations_post]
    rw [if_neg (not_le.mpr h)]
    refine ⟨_, rfl, rfl, rfl, ?_⟩
    intro hname
    rw [hname]
    rfl
  · intro h
    simp only [admin_contributions_post]
    rw [if_pos h]
  · intro v hv hpf
    simp only [admin_contributions_post]
    rw [if_pos (by rw [hv, hzero v hpf])]
  · intro h
    simp only [admin_contributions_post]
    rw [if_neg (not_le.mpr h)]
    refine ⟨_, rfl, rfl, rfl, ?_⟩
    intro hname
    rw [hname]
    rfl

/-- C8 witness: concrete negative, non-numeric and positive bodies: the
negative donation and the non-numeric contribution are rejected with no
change, while the positive nameless bodies are stored with the parsed
amount and the name Anonymous. -/
theorem claim_C8_witness :
    (admin_donations_post emptyDocument "u" "t" jdNeg =
      (emptyDocument, Except.error "Invalid amount")) ∧
    (admin_contributions_post emptyDocument "u" "t" jcNeg =
      (emptyDocument, Except.error "Invalid amount")) ∧
    (∃ r : Donation, (admin_donations_post emptyDocument "u" "t" jdPos).2 = Except.ok r ∧
      r.amount = parsedAmount jdPos.amount ∧
      (admin_donations_post emptyDocument "u" "t" jdPos).1.donations =
        r :: emptyDocument.donations ∧
      (jdPos.name = none → r.name = "Anonymous")) ∧
    (∃ r : Contribution,
      (admin_contributions_post emptyDocument "u" "t" jcPos).2 = Except.ok r ∧
      r.amount = parsedAmount jcPos.amount ∧
      (admin_contributions_post emptyDocument "u" "t" jcPos).1.contributions =
        r :: emptyDocument.contributions ∧
      (jcPos.name = none → r.name = "Anonymous")) := by
  refine ⟨?_, ?_, ?_, ?_⟩
  · exact (claim_C8 emptyDocument "u" "t" jdNeg jcNeg).1 (by decide)
  · exact (claim_C8 emptyDocument "u" "t" jdNeg jcNeg).2.2.2.2.1 (JVal.str "abc") rfl (by decide)
  · exact (claim_C8 emptyDocument "u" "t" jdPos jcPos).2.2.1 (by decide)
  · exact (claim_C8 emptyDocument "u" "t" jdPos jcPos).2.2.2.2.2 (by decide)

/-- C9: for a stored document missing default top-level keys, `load_data`
returns a document where every default key is present, every missing
default key got its empty default value, and every key/value that was
already present is returned unchanged. -/
theorem claim_C9 (db : TopDoc) (h : ∃ kv ∈ DEFAULT_DATA, hasKey db kv.1 = false) :
    (∀ kv ∈ DEFAULT_DATA, hasKey (load_data (some db)) kv.1 = true) ∧
    (∀ kv ∈ DEFAULT_DATA, hasKey db kv.1 = false →
      lookupKey (load_data (some db)) kv.1 = some kv.2) ∧
    (∀ k v, lookupKey db k = some v → lookupKey (load_data (some db)) k = some v) := by
  refine ⟨?_, ?_, ?_⟩
  · intro kv hkv
    exact hasKey_foldl_backfill_mem DEFAULT_DATA db kv hkv
  · intro kv hkv hmiss
    exact lookupKey_foldl_backfill_missing DEFAULT_DATA db kv.1 kv.2 hkv (by decide) hmiss
  · intro k v hv
    exact lookupKey_foldl_backfill_of_some DEFAULT_DATA db k v hv

/-- C9 witness: loading the concrete stored document dbC9 (missing most
default keys, with one extra key) backfills admins with its empty
default and keeps both the pre-existing members value and the extra
key. -/
theorem claim_C9_witness :
    (∃ kv ∈ DEFAULT_DATA, hasKey dbC9 kv.1 = false) ∧
    hasKey (load_data (some dbC9)) "admins" = true ∧
    lookupKey (load_data (some dbC9)) "admins" = some (JVal.arr []) ∧
    lookupKey (load_data (some dbC9)) "members" = some (JVal.arr [JVal.str "x"]) ∧
    lookupKey (load_data (some dbC9)) "extra" = some (JVal.num 7) := by
  have hex : ∃ kv ∈ DEFAULT_DATA, hasKey dbC9 kv.1 = false :=
    ⟨("admins", JVal.arr []), by simp [DEFAULT_DATA], rfl⟩
  have h := claim_C9 dbC9 hex
  refine ⟨hex, ?_, ?_, ?_, ?_⟩
  · exact h.1 ("admins", JVal.arr []) (by simp [DEFAULT_DATA])
  · exact h.2.1 ("admins", JVal.arr []) (by simp [DEFAULT_DATA]) rfl
  · exact h.2.2 "members" (JVal.arr [JVal.str "x"]) rfl
  · exact h.2.2 "extra" (JVal.num 7) rfl

/-- C10 counterexample: in docC10 the id ghost matches no member, yet
member-delete with that id mutates `attendance` (it pops the ghost
entries that attendance can hold because attendance writes accept
unknown member ids), refuting the claim that the document's attendance
is left unchanged. -/
theorem claim_C10_counterexample :
    (∀ m ∈ docC10.members, m.id ≠ "ghost") ∧
    (admin_members_delete docC10 (some "ghost")).2 = true ∧
    (admin_members_delete docC10 (some "ghost")).1.attendance ≠ docC10.attendance := by
  refine ⟨by decide, rfl, by decide⟩

/-- C10 (amended): member-delete with an id matching no member reports
success and leaves `members` unchanged; with no id at all the whole
document is unchanged; but the id's entries are still removed from every
attendance date (a no-op only when attendance holds no entry under that
id), while all other ids' attendance lookups are unchanged. -/
theorem claim_C10_amended (d : Document) (mid : Option String)
    (h : ∀ m ∈ d.members, mid ≠ some m.id) :
    (admin_members_delete d mid).2 = true ∧
    (admin_members_delete d mid).1.members = d.members ∧
    (mid = none → (admin_members_delete d mid).1 = d) ∧
    (∀ s, mid = some s →
      ∀ row ∈ (admin_members_delete d mid).1.attendance, rowLookup row.2 s = none) ∧
    (∀ date k, some k ≠ mid →
      attLookup (admin_members_delete d mid).1 date k = attLookup d date k) := by
  refine ⟨rfl, ?_, ?_, ?_, ?_⟩
  · show d.members.filter (fun m => mid ≠ some m.id) = d.members
    rw [List.filter_eq_self]
    intro m hm
    simp only [decide_eq_true_eq]
    exact h m hm
  · rintro rfl
    cases d
    simp only [admin_members_delete, popEntry]
    congr 1
    · rw [List.filter_eq_self]
      intro m _
      simp
    · simp
  · intro s hs row hrow
    subst hs
    simp only [admin_members_delete] at hrow
    rcases List.mem_map.mp hrow with ⟨q, hq, rfl⟩
    exact rowLookup_filter_self q.2 s
  · intro date k hk
    unfold attLookup
    simp only [admin_members_delete]
    rw [find?_map_snd_update]
    cases hf : d.attendance.find? (fun p => p.1 = date) with
    | none => rfl
    | some row =>
      simp only [Option.map_some]
      cases mid with
      | none => rfl
      | some s =>
        exact rowLookup_filter_ne row.2 s k (fun he => hk (by rw [he]))

/-- C10 witness: deleting the unknown id ghost from docC10 reports ok,
keeps `members`, clears the ghost attendance entry from the date row,
and leaves other ids' lookups unchanged. -/
theorem claim_C10_witness :
    (∀ m ∈ docC10.members, (some "ghost" : Option String) ≠ some m.id) ∧
    (admin_members_delete docC10 (some "ghost")).2 = true ∧
    (admin_members_delete docC10 (some "ghost")).1.members = docC10.members ∧
    rowLookup [] "ghost" = none ∧
    attLookup (admin_members_delete docC10 (some "ghost")).1 "2024-01-05" "other" =
      attLookup docC10 "2024-01-05" "other" := by
  have hno : ∀ m ∈ docC10.members, (some "ghost" : Option String) ≠ some m.id := by decide
  have h := claim_C10_amended docC10 (some "ghost") hno
  refine ⟨hno, h.1, h.2.1, ?_, h.2.2.2.2 "2024-01-05" "other" (by decide)⟩
  exact h.2.2.2.1 "ghost" rfl ("2024-01-05", []) (by decide)

/-- C2: with the remote configured and every conditional write reporting
a conflict/validation status, `save_data` performs exactly 3 write
attempts, each tagged with the version token re-read immediately before
it, keeps the remembered token unchanged, writes the document to the
local cache, and returns success exactly when that local write
succeeds. -/
theorem claim_C2 {α : Type} (doc : α) (env : RemoteEnv) (localOk : Bool)
    (sha0 : Option String) (cache0 : Option α)
    (h : ∀ i, i < 3 → ∃ st, env.put i (env.latestSha i) = PutOutcome.err st ∧
      isRetryStatus st = true) :
    (save_data doc true env localOk sha0 cache0).attemptsMade = 3 ∧
    (save_data doc true env localOk sha0 cache0).shasUsed =
      [env.latestSha 0, env.latestSha 1, env.latestSha 2] ∧
    (save_data doc true env localOk sha0 cache0).sha = sha0 ∧
    (save_data doc true env localOk sha0 cache0).ok = localOk ∧
    (localOk = true → (save_data doc true env localOk sha0 cache0).cache = some doc) := by
  obtain ⟨st0, h0, r0⟩ := h 0 (by norm_num)
  obtain ⟨st1, h1, r1⟩ := h 1 (by norm_num)
  obtain ⟨st2, h2, r2⟩ := h 2 (by norm_num)
  have hsa : saveAttempts env 0 3 =
      RemoteTry.failed [env.latestSha 0, env.latestSha 1, env.latestSha 2] := by
    simp [saveAttempts, h0, h1, h2, r0, r1, r2]
  refine ⟨?_, ?_, ?_, ?_, ?_⟩
  · simp [save_data, hsa]
  · simp [save_data, hsa]
  · simp [save_data, hsa]
  · simp [save_data, hsa]
  · intro hl
    simp [save_data, hsa, hl]

/-- C2 witness: against a remote that answers every write with HTTP 409
and a succeeding local write, saving a concrete document makes 3
attempts with the re-read token, keeps the remembered token, caches the
document locally and reports success. -/
theorem claim_C2_witness :
    (save_data (42 : Nat) true envC2 true none none).attemptsMade = 3 ∧
    (save_data (42 : Nat) true envC2 true none none).shasUsed =
      [some "sha-a", some "sha-a", some "sha-a"] ∧
    (save_data (42 : Nat) true envC2 true none none).sha = none ∧
    (save_data (42 : Nat) true envC2 true none none).ok = true ∧
    (save_data (42 : Nat) true envC2 true none none).cache = some 42 := by
  have h := claim_C2 (42 : Nat) envC2 true none none
    (fun i _ => ⟨some 409, rfl, rfl⟩)
  exact ⟨h.1, h.2.1, h.2.2.1, h.2.2.2.1, h.2.2.2.2 rfl⟩
